import Mathlib

/-!
Verification of the Live Client core of the py-hftbacktest repository.

The Python sources under hftbacktest/live (models.py, client.py, stub.py)
are shallowly embedded below: pure value constructors become Lean
functions, the mutable state of the client and of the stub bot becomes
explicit state passing, machine floats become rationals (only order
comparisons and pass-through of field values matter for the properties
proved here), and Python exceptions become Except values.
-/

namespace HftLive

/-- Trade side, models.py Side (BUY = 1, SELL = -1). -/
inductive Side where
  | BUY
  | SELL
deriving DecidableEq, Repr

/-- Raw bot event as seen by the live client: a record with flag bits ev,
exchange timestamp exch_ts, price px and quantity qty.  Depth snapshot
level records use the same field names, so this type also models them. -/
structure RawEvent where
  ev : Nat
  exch_ts : Int
  px : ℚ
  qty : ℚ
deriving DecidableEq, Repr

/-- Typed trade value, models.py Trade. -/
structure Trade where
  timestamp : Int
  price : ℚ
  qty : ℚ
  side : Side
  asset_no : Nat := 0
deriving DecidableEq, Repr

/-- Embedding of Trade.from_event (models.py lines 27-35): timestamp is the
raw exch_ts, price and qty pass through, side is BUY exactly when bit 0x01
of the flag word is set (Python truthiness of ev and 0x01). -/
def Trade.from_event (event : RawEvent) (asset_no : Nat := 0) : Trade :=
  { timestamp := event.exch_ts
    price := event.px
    qty := event.qty
    side := if event.ev &&& 0x01 ≠ 0 then Side.BUY else Side.SELL
    asset_no := asset_no }

/-- One price level of a depth snapshot, models.py BookLevel. -/
structure BookLevel where
  price : ℚ
  qty : ℚ
deriving DecidableEq, Repr

/-- Best-bid/ask view used by BookUpdate.from_depth and
DepthSnapshot.from_depth; models the depth object returned by the bot
(stub.py StubDepth has exactly these fields). -/
structure Depth where
  best_bid : ℚ
  best_bid_qty : ℚ
  best_ask : ℚ
  best_ask_qty : ℚ
  snapshot : List RawEvent
deriving DecidableEq, Repr

/-- Best-bid/ask update value, models.py BookUpdate. -/
structure BookUpdate where
  timestamp : Int
  bid_price : ℚ
  bid_qty : ℚ
  ask_price : ℚ
  ask_qty : ℚ
  asset_no : Nat := 0
deriving DecidableEq, Repr

/-- Embedding of BookUpdate.from_depth (models.py lines 53-62). -/
def BookUpdate.from_depth (depth : Depth) (timestamp : Int) (asset_no : Nat := 0) : BookUpdate :=
  { timestamp := timestamp
    bid_price := depth.best_bid
    bid_qty := depth.best_bid_qty
    ask_price := depth.best_ask
    ask_qty := depth.best_ask_qty
    asset_no := asset_no }

/-- Full depth snapshot value, models.py DepthSnapshot. -/
structure DepthSnapshot where
  timestamp : Int
  bids : List BookLevel
  asks : List BookLevel
  asset_no : Nat := 0
deriving DecidableEq, Repr

/-- The level-classification loop of DepthSnapshot.from_depth (models.py
lines 78-85): walk the raw snapshot in order, keep only levels with
qty strictly positive, send a level to the bid list when bit 0x01 of its
flag word is set and to the ask list otherwise. -/
def split_levels : List RawEvent → List BookLevel × List BookLevel
  | [] => ([], [])
  | l :: rest =>
    if 0 < l.qty then
      if l.ev &&& 0x01 ≠ 0 then
        (⟨l.px, l.qty⟩ :: (split_levels rest).1, (split_levels rest).2)
      else
        ((split_levels rest).1, ⟨l.px, l.qty⟩ :: (split_levels rest).2)
    else
      split_levels rest

/-- Ordering used for the bid side: Python sort with reverse=True on the
price key, that is, descending by price.  Python list.sort is stable, and
a stable sort by a key is a unique function of the input list, so the
stable insertion sort below is extensionally the very sort the source
performs. -/
def bidOrder (a b : BookLevel) : Prop := b.price ≤ a.price

/-- Ordering used for the ask side: ascending by price. -/
def askOrder (a b : BookLevel) : Prop := a.price ≤ b.price

instance : DecidableRel bidOrder := fun a b => inferInstanceAs (Decidable (b.price ≤ a.price))

instance : DecidableRel askOrder := fun a b => inferInstanceAs (Decidable (a.price ≤ b.price))

instance : IsTotal BookLevel bidOrder := ⟨fun a b => le_total b.price a.price⟩

instance : IsTrans BookLevel bidOrder := ⟨fun _ _ _ h h' => le_trans h' h⟩

instance : IsTotal BookLevel askOrder := ⟨fun a b => le_total a.price b.price⟩

instance : IsTrans BookLevel askOrder := ⟨fun _ _ _ h h' => le_trans h h'⟩

/-- Embedding of DepthSnapshot.from_depth (models.py lines 72-95): classify
the raw levels, then sort bids descending and asks ascending by price. -/
def DepthSnapshot.from_depth (depth : Depth) (timestamp : Int) (asset_no : Nat := 0) : DepthSnapshot :=
  let pair := split_levels depth.snapshot
  { timestamp := timestamp
    bids := pair.1.insertionSort bidOrder
    asks := pair.2.insertionSort askOrder
    asset_no := asset_no }

/-- Order response value, models.py OrderResponse. -/
structure OrderResponse where
  order_id : Int
  status : String
  filled_qty : ℚ := 0
  avg_price : ℚ := 0
  timestamp : Option Int := none
  asset_no : Nat := 0
  error : Option String := none
deriving DecidableEq, Repr

/-- Connection health snapshot, models.py ConnectionHealth. -/
structure ConnectionHealth where
  connected : Bool
  feed_latency_ns : Option Int := none
  order_latency_ns : Option Int := none
  last_feed_time : Option Int := none
  last_order_time : Option Int := none
deriving DecidableEq, Repr

/-- Result of one call into the underlying Bot binding, as observed by the
client: either a status code (a Python int) or a raised exception carrying
its text (Python str of the exception, which may be empty). -/
abbrev BotCallResult := Except String Int

/-- Embedding of LiveClient._decode_error (client.py lines 434-446): the
fixed lookup table, with unknown codes rendered via the f-string
f"Unknown error code: N". -/
def decode_error (code : Int) : String :=
  if code = 1 then "End of data"
  else if code = 10 then "Order ID already exists"
  else if code = 12 then "Order not found"
  else if code = 14 then "Invalid order status"
  else if code = 16 then "Instrument not found"
  else if code = 17 then "Timeout"
  else if code = 18 then "Interrupted"
  else if code = 19 then "Custom error"
  else "Unknown error code: " ++ toString code

/-- The keys of the _decode_error lookup table. -/
def knownErrorCodes : List Int := [1, 10, 12, 14, 16, 17, 18, 19]

/-- Embedding of the response construction of LiveClient.submit_order
(client.py lines 338-370), as a function of the outcome of the underlying
submit_buy_order or submit_sell_order call: code 0 gives status submitted,
a non-zero code gives status error with the decoded description, and an
exception from the binding gives status error with the exception text. -/
def submit_order (order_id : Int) (asset_no : Nat) (callResult : BotCallResult) : OrderResponse :=
  match callResult with
  | .ok result =>
    if result = 0 then
      { order_id := order_id, status := "submitted", asset_no := asset_no }
    else
      { order_id := order_id, status := "error", asset_no := asset_no
        error := some (decode_error result) }
  | .error e =>
    { order_id := order_id, status := "error", asset_no := asset_no, error := some e }

/-- Embedding of the response construction of LiveClient.cancel_order
(client.py lines 372-403), as a function of the outcome of the underlying
cancel call: code 0 gives status cancelled, mirroring submit_order. -/
def cancel_order (order_id : Int) (asset_no : Nat) (callResult : BotCallResult) : OrderResponse :=
  match callResult with
  | .ok result =>
    if result = 0 then
      { order_id := order_id, status := "cancelled", asset_no := asset_no }
    else
      { order_id := order_id, status := "error", asset_no := asset_no
        error := some (decode_error result) }
  | .error e =>
    { order_id := order_id, status := "error", asset_no := asset_no, error := some e }

/-- The order-id allocation state of one LiveClient instance: the value of
the _next_order_id field, set to 1 in __init__ (client.py line 66). -/
structure OrderIdGen where
  next_order_id : Int
deriving DecidableEq, Repr

/-- The allocation state of a freshly constructed client. -/
def OrderIdGen.init : OrderIdGen := ⟨1⟩

/-- Embedding of LiveClient._generate_order_id (client.py lines 318-322):
return the current counter value and increment the counter.  The Python
code performs this under _order_id_lock, so successive calls observe the
sequential state-passing semantics embedded here. -/
def generate_order_id (g : OrderIdGen) : Int × OrderIdGen :=
  (g.next_order_id, ⟨g.next_order_id + 1⟩)

/-- Allocation state after n auto-assignments on a fresh client. -/
def gen_state_after : Nat → OrderIdGen
  | 0 => OrderIdGen.init
  | n + 1 => (generate_order_id (gen_state_after n)).2

/-- The order id produced by the (n+1)-th auto-assignment on a fresh
client (n counts the calls already made). -/
def auto_order_id (n : Nat) : Int :=
  (generate_order_id (gen_state_after n)).1

/-- The effective timeout the blocking getters pass to Queue.get: the
Python expression timeout or 0.1 (client.py lines 256-293), where both
None and a zero float are falsy and fall back to the 0.1-second default. -/
def effective_timeout (timeout : Option ℚ) : ℚ :=
  match timeout with
  | none => 0.1
  | some t => if t = 0 then 0.1 else t

/-- The call the blocking getters issue against their queue:
Queue.get(block, timeout).  All three of get_trade, get_book_update and
get_snapshot pass block = True and the effective timeout. -/
structure BlockingGetCall where
  block : Bool
  timeout : ℚ
deriving DecidableEq, Repr

/-- The Queue.get call issued by LiveClient.get_trade (client.py lines
256-267). -/
def get_trade_call (timeout : Option ℚ) : BlockingGetCall :=
  { block := true, timeout := effective_timeout timeout }

/-- The Queue.get call issued by LiveClient.get_book_update (client.py
lines 269-280). -/
def get_book_update_call (timeout : Option ℚ) : BlockingGetCall :=
  { block := true, timeout := effective_timeout timeout }

/-- The Queue.get call issued by LiveClient.get_snapshot (client.py lines
282-293). -/
def get_snapshot_call (timeout : Option ℚ) : BlockingGetCall :=
  { block := true, timeout := effective_timeout timeout }

/-- What one asset contributed to one health sampling pass: the outcome of
the bot.feed_latency call (a pair of timestamps, None, or a raised
exception) and of the bot.order_latency call (a triple, None, or a raised
exception). -/
structure AssetLatency where
  feed : Except String (Option (Int × Int))
  order : Except String (Option (Int × Int × Int))
deriving Repr

/-- The local variables accumulated across the asset loop of
LiveClient._update_health (client.py lines 217-239). -/
structure HealthAccum where
  connected : Bool
  feed_latency : Option Int
  order_latency : Option Int
  last_feed_time : Option Int
  last_order_time : Option Int
deriving DecidableEq, Repr

/-- Accumulator state at the top of the asset loop of _update_health. -/
def HealthAccum.init : HealthAccum :=
  { connected := false, feed_latency := none, order_latency := none
    last_feed_time := none, last_order_time := none }

/-- One iteration of the asset loop of LiveClient._update_health (client.py
lines 223-239).  The whole iteration sits in a try block: an exception in
feed_latency skips the rest of the iteration, an exception in
order_latency leaves the feed fields already assigned. -/
def sample_asset (st : HealthAccum) (a : AssetLatency) : HealthAccum :=
  match a.feed with
  | .error _ => st
  | .ok fl =>
    let st1 :=
      match fl with
      | some (exch_ts, local_ts) =>
        { st with feed_latency := some (local_ts - exch_ts)
                  last_feed_time := some local_ts
                  connected := true }
      | none => st
    match a.order with
    | .error _ => st1
    | .ok ol =>
      match ol with
      | some (req_ts, _exch_ts, resp_ts) =>
        { st1 with order_latency := some (resp_ts - req_ts)
                   last_order_time := some resp_ts }
      | none => st1

/-- Embedding of LiveClient._update_health (client.py lines 214-254) as a
function of the per-asset sampling outcomes of one pass: it returns the
brand-new ConnectionHealth written to the shared slot and whether the
registered disconnect callback was invoked on this pass (old snapshot
connected, new one not). -/
def update_health (old : ConnectionHealth) (assets : List AssetLatency) :
    ConnectionHealth × Bool :=
  let acc := assets.foldl sample_asset HealthAccum.init
  let health : ConnectionHealth :=
    { connected := acc.connected
      feed_latency_ns := acc.feed_latency
      order_latency_ns := acc.order_latency
      last_feed_time := acc.last_feed_time
      last_order_time := acc.last_order_time }
  (health, old.connected && !acc.connected)

/-- The connected flag the pass with the given per-asset outcomes computes. -/
def pass_connected (assets : List AssetLatency) : Bool :=
  (assets.foldl sample_asset HealthAccum.init).connected

/-- Sequence of health sampling passes run by the health worker: the
snapshot threads from pass to pass, and each pass records whether it
invoked the disconnect callback. -/
def run_health (h : ConnectionHealth) : List (List AssetLatency) → List Bool
  | [] => []
  | p :: ps =>
    let step := update_health h p
    step.2 :: run_health step.1 ps

/-- Edge indicators of a boolean sequence with the given starting value:
entry i is true exactly when the value was true before step i and false
after it.  This is the specification-side statement of one callback
invocation per connected-to-disconnected transition. -/
def edge_flags (prev : Bool) : List Bool → List Bool
  | [] => []
  | c :: cs => (prev && !c) :: edge_flags c cs

/-- The three bounded channels of the client together with their configured
capacities (Queue(maxsize) in __init__, client.py lines 51-53).  Lists
grow at the tail as Queue.put appends. -/
structure Queues where
  trade_queue : List Trade
  trade_cap : Nat
  book_queue : List BookUpdate
  book_cap : Nat
  snapshot_queue : List DepthSnapshot
  snapshot_cap : Nat
deriving DecidableEq, Repr

/-- Non-blocking put into a bounded channel: Queue.put_nowait succeeds when
the queue is below capacity; on a full queue the exception is caught and
the event is dropped with a warning (client.py lines 170-191). -/
def put_nowait {α : Type} (q : List α) (cap : Nat) (x : α) : List α :=
  if q.length < cap then q ++ [x] else q

/-- What the feed worker reads from the bot for one asset during one
market-feed pass: the outcome of bot.last_trades (a list of raw events, or
a raised exception) and the depth object bot.depth returns for the asset. -/
structure AssetFeed where
  trades : Except String (List RawEvent)
  depth : Depth
deriving Repr

/-- Event-flag constants imported by client.py from the hftbacktest
package; the classification logic below is parametric in their values. -/
structure EventFlags where
  TRADE_EVENT : Nat
  DEPTH_EVENT : Nat
  DEPTH_BBO_EVENT : Nat
  DEPTH_SNAPSHOT_EVENT : Nat
deriving DecidableEq, Repr

/-- The per-event classification and push of LiveClient._process_market_feed
(client.py lines 165-191): trades, best-bid/ask book updates and full
depth snapshots go to their own bounded channels, non-blockingly. -/
def process_event (fl : EventFlags) (depth : Depth) (asset_no : Nat) (q : Queues)
    (event : RawEvent) : Queues :=
  if event.ev &&& fl.TRADE_EVENT ≠ 0 then
    let trade := Trade.from_event event asset_no
    { q with trade_queue := put_nowait q.trade_queue q.trade_cap trade }
  else if event.ev &&& (fl.DEPTH_EVENT ||| fl.DEPTH_BBO_EVENT) ≠ 0 then
    let book_update := BookUpdate.from_depth depth event.exch_ts asset_no
    { q with book_queue := put_nowait q.book_queue q.book_cap book_update }
  else if event.ev &&& fl.DEPTH_SNAPSHOT_EVENT ≠ 0 then
    let snapshot := DepthSnapshot.from_depth depth event.exch_ts asset_no
    { q with snapshot_queue := put_nowait q.snapshot_queue q.snapshot_cap snapshot }
  else
    q

/-- One iteration of the asset loop of LiveClient._process_market_feed
(client.py lines 161-196).  The whole iteration sits in a try block whose
except clause only logs: when draining the asset raises, the iteration
contributes nothing and the loop moves on. -/
def process_asset (fl : EventFlags) (q : Queues) (asset_no : Nat) (a : AssetFeed) : Queues :=
  match a.trades with
  | .error _ => q
  | .ok events => events.foldl (process_event fl a.depth asset_no) q

/-- Embedding of LiveClient._process_market_feed (client.py lines 158-196):
iterate over the asset indices in order, processing each asset inside its
own try block. -/
def process_market_feed (fl : EventFlags) (q : Queues) (asset_no : Nat) :
    List AssetFeed → Queues
  | [] => q
  | a :: rest => process_market_feed fl (process_asset fl q asset_no a) (asset_no + 1) rest

/-- Mock order record, stub.py StubOrder. -/
structure StubOrder where
  order_id : Int
  side : Int
  price : ℚ
  qty : ℚ
  leaves_qty : ℚ := 0
  status : String := "accepted"
deriving DecidableEq, Repr

/-- The depth state of a fresh StubConnectorBot (stub.py StubDepth
defaults). -/
def StubDepth.init : Depth :=
  { best_bid := 50000, best_bid_qty := 1, best_ask := 50001, best_ask_qty := 1
    snapshot := [] }

/-- The mutable state of a StubConnectorBot (stub.py lines 86-103).  The
_orders dict becomes an association list in insertion order. -/
structure StubState where
  base_price : ℚ
  current_ns : Int
  closed : Bool
  position : ℚ
  orders : List (Int × StubOrder)
  depth : Depth
  last_trades : List RawEvent
  feed_count : Nat
deriving DecidableEq, Repr

/-- State of a freshly constructed StubConnectorBot; t0 stands for the
wall-clock nanosecond value int(time.time() * 1e9) read in __init__. -/
def StubState.init (base_price : ℚ) (t0 : Int) : StubState :=
  { base_price := base_price, current_ns := t0, closed := false, position := 0
    orders := [], depth := StubDepth.init, last_trades := [], feed_count := 0 }

/-- Membership test of the _orders dict: order_id in self._orders. -/
def StubState.hasOrder (s : StubState) (order_id : Int) : Bool :=
  (s.orders.lookup order_id).isSome

/-- Embedding of StubConnectorBot.close (stub.py lines 105-108). -/
def StubConnectorBot.close (s : StubState) : Int × StubState :=
  (0, { s with closed := true })

/-- Embedding of StubConnectorBot.submit_buy_order (stub.py lines 171-207).
The fill parameter stands for the random() < 0.3 draw that simulates an
occasional immediate fill; it does not affect the status code. -/
def StubConnectorBot.submit_buy_order (s : StubState) (order_id : Int) (price qty : ℚ)
    (fill : Bool) : Int × StubState :=
  if s.hasOrder order_id then
    (10, s)
  else
    let ord : StubOrder :=
      { order_id := order_id, side := 1, price := price, qty := qty
        leaves_qty := qty, status := "accepted" }
    let ord := if fill then { ord with leaves_qty := 0, status := "filled" } else ord
    let pos := if fill then s.position + qty else s.position
    (0, { s with orders := s.orders ++ [(order_id, ord)], position := pos })

/-- Embedding of StubConnectorBot.submit_sell_order (stub.py lines
209-245), mirroring the buy side with side = -1 and position decrease. -/
def StubConnectorBot.submit_sell_order (s : StubState) (order_id : Int) (price qty : ℚ)
    (fill : Bool) : Int × StubState :=
  if s.hasOrder order_id then
    (10, s)
  else
    let ord : StubOrder :=
      { order_id := order_id, side := -1, price := price, qty := qty
        leaves_qty := qty, status := "accepted" }
    let ord := if fill then { ord with leaves_qty := 0, status := "filled" } else ord
    let pos := if fill then s.position - qty else s.position
    (0, { s with orders := s.orders ++ [(order_id, ord)], position := pos })

/-- Embedding of StubConnectorBot.cancel (stub.py lines 247-264): code 12
when the order id is not a key of the _orders dict, else delete it. -/
def StubConnectorBot.cancel (s : StubState) (order_id : Int) : Int × StubState :=
  if s.hasOrder order_id then
    (0, { s with orders := s.orders.filter (fun p => p.1 ≠ order_id) })
  else
    (12, s)

/-- The pseudo-random draws consumed by one wait_next_feed call of the
stub: the two branch coins random() < 0.7 and random() < 0.8, the trade
coin random() < 0.5, the gaussian and uniform draws that shape the
synthetic trade and depth, and the randint time advance. -/
structure FeedRand where
  gen_trade : Bool
  gen_depth : Bool
  trade_is_buy : Bool
  trade_price_change : ℚ
  trade_qty : ℚ
  depth_price_change : ℚ
  depth_spread_factor : ℚ
  depth_bid_qty : ℚ
  depth_ask_qty : ℚ
  time_advance : Int
deriving DecidableEq, Repr

/-- Embedding of StubConnectorBot._generate_synthetic_trade (stub.py lines
297-317): append one synthetic trade event to the _last_trades buffer,
with ev = 0x01 for a buy and 0x02 for a sell. -/
def StubConnectorBot.generate_synthetic_trade (s : StubState) (r : FeedRand) : StubState :=
  let mid := (s.depth.best_bid + s.depth.best_ask) / 2
  let trade_price := mid + r.trade_price_change
  let ev := if r.trade_is_buy then 0x01 else 0x02
  let trade : RawEvent := { ev := ev, exch_ts := s.current_ns, px := trade_price, qty := r.trade_qty }
  { s with last_trades := s.last_trades ++ [trade] }

/-- Embedding of StubConnectorBot._update_synthetic_depth (stub.py lines
319-341): random-walk the best bid/ask and append a depth snapshot event
(ev = 0x04) to the _last_trades buffer. -/
def StubConnectorBot.update_synthetic_depth (s : StubState) (r : FeedRand) : StubState :=
  let mid := (s.depth.best_bid + s.depth.best_ask) / 2
  let new_mid := mid + r.depth_price_change
  let spread := r.depth_spread_factor
  let depth :=
    { s.depth with best_bid := new_mid - spread / 2
                   best_bid_qty := r.depth_bid_qty
                   best_ask := new_mid + spread / 2
                   best_ask_qty := r.depth_ask_qty }
  let snapshot_event : RawEvent := { ev := 0x04, exch_ts := s.current_ns, px := 0, qty := 0 }
  { s with depth := depth, last_trades := s.last_trades ++ [snapshot_event] }

/-- Embedding of StubConnectorBot.wait_next_feed (stub.py lines 110-149):
return 1 immediately when closed; increment _feed_count and return 1 once
it exceeds 1000; otherwise run the synthetic generators, advance the
clock, and report 2 when data is pending (or every fifth poll) and 0 for
a timeout. -/
def StubConnectorBot.wait_next_feed (s : StubState) (r : FeedRand) : Int × StubState :=
  if s.closed then
    (1, s)
  else
    let s := { s with feed_count := s.feed_count + 1 }
    if s.feed_count > 1000 then
      (1, s)
    else
      let s := if r.gen_trade then StubConnectorBot.generate_synthetic_trade s r else s
      let s := if r.gen_depth then StubConnectorBot.update_synthetic_depth s r else s
      let s := { s with current_ns := s.current_ns + r.time_advance }
      if s.last_trades ≠ [] ∨ s.feed_count % 5 = 0 then
        (2, s)
      else
        (0, s)

/-- One call a user of the stub bot can make that touches its mutable
state: wait_next_feed, close, an order submission or a cancellation. -/
inductive StubOp where
  | wait (r : FeedRand)
  | close
  | submitBuy (order_id : Int) (price qty : ℚ) (fill : Bool)
  | submitSell (order_id : Int) (price qty : ℚ) (fill : Bool)
  | cancel (order_id : Int)
deriving DecidableEq, Repr

/-- Apply one stub call to the stub state, discarding the returned code. -/
def StubOp.apply (s : StubState) : StubOp → StubState
  | .wait r => (StubConnectorBot.wait_next_feed s r).2
  | .close => (StubConnectorBot.close s).2
  | .submitBuy oid p q f => (StubConnectorBot.submit_buy_order s oid p q f).2
  | .submitSell oid p q f => (StubConnectorBot.submit_sell_order s oid p q f).2
  | .cancel oid => (StubConnectorBot.cancel s oid).2

/-- Run a sequence of stub calls from a state. -/
def StubState.run (s : StubState) : List StubOp → StubState
  | [] => s
  | op :: ops => StubState.run (op.apply s) ops

/-- Number of wait_next_feed calls in a call sequence. -/
def waitCount : List StubOp → Nat
  | [] => 0
  | .wait _ :: ops => waitCount ops + 1
  | _ :: ops => waitCount ops

/-- The full path of LiveClient.submit_order run against the stub bot:
dispatch on side into the stub submit call (client.py lines 338-346) and
build the OrderResponse from the returned status code.  The stub never
raises, so the binding-exception branch cannot trigger here. -/
def submit_order_against_stub (s : StubState) (side : Side) (price qty : ℚ)
    (asset_no : Nat) (order_id : Int) (fill : Bool) : OrderResponse × StubState :=
  let call :=
    match side with
    | Side.BUY => StubConnectorBot.submit_buy_order s order_id price qty fill
    | Side.SELL => StubConnectorBot.submit_sell_order s order_id price qty fill
  (submit_order order_id asset_no (Except.ok call.1), call.2)

/-- The full path of LiveClient.cancel_order run against the stub bot. -/
def cancel_order_against_stub (s : StubState) (order_id : Int) (asset_no : Nat) :
    OrderResponse × StubState :=
  let call := StubConnectorBot.cancel s order_id
  (cancel_order order_id asset_no (Except.ok call.1), call.2)

/-- Substring containment of strings, used to state that error
descriptions contain a required phrase. -/
def containsStr (s t : String) : Prop := ∃ pre post, s = pre ++ t ++ post

/-- A stub bot state holding exactly one active order, with id 5. -/
def stubWithOrder : StubState :=
  (StubConnectorBot.submit_buy_order (StubState.init 50000 0) 5 100 1 false).2

/-- A fixed pseudo-random draw for concrete evaluations of the stub. -/
def feedRand0 : FeedRand :=
  { gen_trade := false, gen_depth := false, trade_is_buy := false
    trade_price_change := 0, trade_qty := 0, depth_price_change := 0
    depth_spread_factor := 0, depth_bid_qty := 0, depth_ask_qty := 0
    time_advance := 0 }

/-! Theorems.  Each claim of the specification is settled by one theorem
below; helper lemmas carry their own names. -/

theorem and_one_ne_zero_iff_testBit (n : Nat) : (n &&& 1 ≠ 0) ↔ n.testBit 0 = true := by
  rw [Nat.and_one_is_mod, Nat.testBit_zero]
  simp only [decide_eq_true_eq]
  omega

/-- C4: for every raw event and asset index, Trade.from_event yields side
BUY exactly when the buy-flag bit (bit 0 of the flag word) is set and SELL
otherwise, passes the price px and quantity qty through unchanged, and
takes its timestamp from the exchange timestamp exch_ts of the raw event.
The statement quantifies over all raw events, so in particular it covers
every well-formed Trade-classified one. -/
theorem trade_from_event_spec (e : RawEvent) (a : Nat) :
    ((Trade.from_event e a).side = Side.BUY ↔ e.ev.testBit 0 = true)
    ∧ ((Trade.from_event e a).side = Side.SELL ↔ ¬ e.ev.testBit 0 = true)
    ∧ (Trade.from_event e a).price = e.px
    ∧ (Trade.from_event e a).qty = e.qty
    ∧ (Trade.from_event e a).timestamp = e.exch_ts := by
  refine ⟨?_, ?_, rfl, rfl, rfl⟩ <;>
    rw [← and_one_ne_zero_iff_testBit] <;>
    simp only [Trade.from_event] <;>
    by_cases h : e.ev &&& 1 ≠ 0 <;>
    simp [h]

theorem gen_state_after_eq (n : Nat) : gen_state_after n = ⟨1 + (n : Int)⟩ := by
  induction n with
  | zero => rfl
  | succ n ih =>
    simp only [gen_state_after, ih, generate_order_id]
    congr 1

theorem auto_order_id_eq (n : Nat) : auto_order_id n = 1 + (n : Int) := by
  simp [auto_order_id, gen_state_after_eq, generate_order_id]

/-- C3: order-id allocation on a fresh client is strictly increasing and
unique across calls: the counter starts at 1, each allocation returns the
counter and increments it, the first three auto-assigned ids are 1, 2, 3,
and an earlier call always returns a strictly smaller id than a later
one. -/
theorem order_id_allocation_spec (i j : Nat) (hij : i < j) :
    auto_order_id 0 = 1
    ∧ auto_order_id 1 = 2
    ∧ auto_order_id 2 = 3
    ∧ OrderIdGen.init.next_order_id = 1
    ∧ auto_order_id i < auto_order_id j := by
  refine ⟨by decide, by decide, by decide, rfl, ?_⟩
  rw [auto_order_id_eq, auto_order_id_eq]
  omega

theorem order_id_allocation_witness :
    auto_order_id 0 = 1 ∧ auto_order_id 1 = 2 ∧ auto_order_id 2 = 3
    ∧ OrderIdGen.init.next_order_id = 1 ∧ auto_order_id 0 < auto_order_id 1 :=
  order_id_allocation_spec 0 1 (by decide)

/-- C10: the blocking consumer reads treat an absent timeout and a timeout
of 0 identically, issuing Queue.get(block = True, timeout = 0.1) in both
cases (Python: timeout or 0.1, where both None and 0 are falsy), and for
every non-negative timeout the issued call is a blocking call with a
strictly positive finite timeout, so no call with timeout 0 is a
non-blocking poll and no blocking read waits unboundedly. -/
theorem blocking_get_timeout_spec (t : ℚ) (ht : 0 ≤ t) :
    get_trade_call none = get_trade_call (some 0)
    ∧ get_book_update_call none = get_book_update_call (some 0)
    ∧ get_snapshot_call none = get_snapshot_call (some 0)
    ∧ effective_timeout none = 1 / 10
    ∧ effective_timeout (some 0) = 1 / 10
    ∧ (get_trade_call (some t)).block = true
    ∧ 0 < (get_trade_call (some t)).timeout
    ∧ 0 < (get_book_update_call (some t)).timeout
    ∧ 0 < (get_snapshot_call (some t)).timeout := by
  have hpos : 0 < effective_timeout (some t) := by
    simp only [effective_timeout]
    by_cases h : t = 0
    · simp only [h, if_pos rfl]
      norm_num
    · rw [if_neg h]
      exact lt_of_le_of_ne ht (Ne.symm h)
  refine ⟨rfl, rfl, rfl, by norm_num [effective_timeout], by norm_num [effective_timeout],
    rfl, hpos, hpos, hpos⟩

theorem blocking_get_timeout_witness :
    get_trade_call none = get_trade_call (some 0)
    ∧ get_book_update_call none = get_book_update_call (some 0)
    ∧ get_snapshot_call none = get_snapshot_call (some 0)
    ∧ effective_timeout none = 1 / 10
    ∧ effective_timeout (some 0) = 1 / 10
    ∧ (get_trade_call (some 5)).block = true
    ∧ 0 < (get_trade_call (some 5)).timeout
    ∧ 0 < (get_book_update_call (some 5)).timeout
    ∧ 0 < (get_snapshot_call (some 5)).timeout :=
  blocking_get_timeout_spec 5 (by norm_num)

theorem decode_error_ne_empty (code : Int) : decode_error code ≠ "" := by
  unfold decode_error
  split_ifs <;> try decide
  intro h
  have h2 := congrArg String.length h
  rw [String.length_append] at h2
  simp at h2
  exact absurd h2.1 (by decide)

/-- C1: for every status code returned by the underlying Bot call,
submit_order returns an OrderResponse (the embedding is a total function,
so no exception escapes): code 0 yields status submitted, every non-zero
code yields status error with the fixed lookup-table decoding of the code
as description, codes outside the table render exactly as the string
Unknown error code: N, and a binding exception yields status error with
the exception text as description.  cancel_order mirrors this with code 0
yielding status cancelled. -/
theorem order_call_status_spec (oid : Int) (a : Nat) (code ucode : Int) (e : String)
    (hcode : code ≠ 0) (hunk : ucode ∉ knownErrorCodes) :
    (submit_order oid a (Except.ok 0)).status = "submitted"
    ∧ (cancel_order oid a (Except.ok 0)).status = "cancelled"
    ∧ (submit_order oid a (Except.ok code)).status = "error"
    ∧ (submit_order oid a (Except.ok code)).error = some (decode_error code)
    ∧ (cancel_order oid a (Except.ok code)).status = "error"
    ∧ (cancel_order oid a (Except.ok code)).error = some (decode_error code)
    ∧ decode_error ucode = "Unknown error code: " ++ toString ucode
    ∧ (submit_order oid a (Except.error e)).status = "error"
    ∧ (submit_order oid a (Except.error e)).error = some e
    ∧ (cancel_order oid a (Except.error e)).status = "error"
    ∧ (cancel_order oid a (Except.error e)).error = some e := by
  have hu : ucode ≠ 1 ∧ ucode ≠ 10 ∧ ucode ≠ 12 ∧ ucode ≠ 14 ∧ ucode ≠ 16 ∧ ucode ≠ 17
      ∧ ucode ≠ 18 ∧ ucode ≠ 19 := by
    simpa [knownErrorCodes, not_or] using hunk
  refine ⟨rfl, rfl, ?_, ?_, ?_, ?_, ?_, rfl, rfl, rfl, rfl⟩
  · simp [submit_order, hcode]
  · simp [submit_order, hcode]
  · simp [cancel_order, hcode]
  · simp [cancel_order, hcode]
  · simp [decode_error, hu.1, hu.2.1, hu.2.2.1, hu.2.2.2.1, hu.2.2.2.2.1, hu.2.2.2.2.2.1,
      hu.2.2.2.2.2.2.1, hu.2.2.2.2.2.2.2]

theorem order_call_status_witness :
    (submit_order 7 0 (Except.ok 0)).status = "submitted"
    ∧ (cancel_order 7 0 (Except.ok 0)).status = "cancelled"
    ∧ (submit_order 7 0 (Except.ok 10)).status = "error"
    ∧ (submit_order 7 0 (Except.ok 10)).error = some (decode_error 10)
    ∧ (cancel_order 7 0 (Except.ok 10)).status = "error"
    ∧ (cancel_order 7 0 (Except.ok 10)).error = some (decode_error 10)
    ∧ decode_error 42 = "Unknown error code: " ++ toString (42 : Int)
    ∧ (submit_order 7 0 (Except.error "boom")).status = "error"
    ∧ (submit_order 7 0 (Except.error "boom")).error = some "boom"
    ∧ (cancel_order 7 0 (Except.error "boom")).status = "error"
    ∧ (cancel_order 7 0 (Except.error "boom")).error = some "boom" :=
  order_call_status_spec 7 0 10 42 "boom" (by decide) (by decide)

/-- C6 counterexample: when the underlying Bot raises an exception whose
text is empty (Python Exception() stringifies to the empty string),
submit_order returns status error with an empty error description, so not
every error response carries a non-empty description. -/
theorem error_description_counterexample :
    (submit_order 1 0 (Except.error "")).status = "error"
    ∧ (submit_order 1 0 (Except.error "")).error = some ""
    ∧ ("" : String).length = 0 :=
  ⟨rfl, rfl, rfl⟩

/-- C6 (amended): every error response carries a description: a status-code
rejection always carries the decoded message, which is non-empty for every
code, and a binding-exception rejection carries exactly the exception
text, hence a non-empty description whenever that text is non-empty. -/
theorem error_description_amended (oid : Int) (a : Nat) (code : Int) (e : String)
    (hcode : code ≠ 0) (he : e ≠ "") :
    decode_error code ≠ ""
    ∧ (submit_order oid a (Except.ok code)).error = some (decode_error code)
    ∧ (cancel_order oid a (Except.ok code)).error = some (decode_error code)
    ∧ (submit_order oid a (Except.error e)).error = some e
    ∧ (cancel_order oid a (Except.error e)).error = some e
    ∧ some e ≠ some ("" : String)
    ∧ (∀ r : BotCallResult, (submit_order oid a r).status = "error" →
        (submit_order oid a r).error.isSome = true)
    ∧ (∀ r : BotCallResult, (cancel_order oid a r).status = "error" →
        (cancel_order oid a r).error.isSome = true) := by
  refine ⟨decode_error_ne_empty code, ?_, ?_, rfl, rfl, by simpa using he, ?_, ?_⟩
  · simp [submit_order, hcode]
  · simp [cancel_order, hcode]
  · intro r hr
    match r with
    | .ok c =>
      by_cases hc : c = 0
      · simp [submit_order, hc] at hr
      · simp [submit_order, hc]
    | .error msg => simp [submit_order]
  · intro r hr
    match r with
    | .ok c =>
      by_cases hc : c = 0
      · simp [cancel_order, hc] at hr
      · simp [cancel_order, hc]
    | .error msg => simp [cancel_order]

theorem error_description_amended_witness :
    decode_error 12 ≠ ""
    ∧ (submit_order 3 0 (Except.ok 12)).error = some (decode_error 12)
    ∧ (cancel_order 3 0 (Except.ok 12)).error = some (decode_error 12)
    ∧ (submit_order 3 0 (Except.error "boom")).error = some "boom"
    ∧ (cancel_order 3 0 (Except.error "boom")).error = some "boom"
    ∧ some "boom" ≠ some ("" : String)
    ∧ (∀ r : BotCallResult, (submit_order 3 0 r).status = "error" →
        (submit_order 3 0 r).error.isSome = true)
    ∧ (∀ r : BotCallResult, (cancel_order 3 0 r).status = "error" →
        (cancel_order 3 0 r).error.isSome = true) :=
  error_description_amended 3 0 12 "boom" (by decide) (by decide)

/-- C5: across every sequence of health sampling passes, the disconnect
callback is invoked exactly on the connected-to-disconnected edges of the
shared ConnectionHealth snapshot: the invocation flags of the passes are
precisely the edge indicators of the connected sequence, so the callback
fires on the pass making a true-to-false transition and not again on
later passes while the snapshot stays disconnected. -/
theorem disconnect_callback_edge_spec (h : ConnectionHealth) (passes : List (List AssetLatency)) :
    run_health h passes = edge_flags h.connected (passes.map pass_connected) := by
  induction passes generalizing h with
  | nil => rfl
  | cons p ps ih =>
    show (update_health h p).2 :: run_health (update_health h p).1 ps = _
    rw [List.map_cons, edge_flags, ih]
    rfl

/-- C8: within one market-feed pass of the feed worker, an exception
raised while draining one asset is caught inside the loop iteration of
that asset: the failing asset contributes nothing to the channels, the
pass does not terminate, and every remaining asset of the pass is
processed exactly as it would have been, at its own asset index. -/
theorem feed_worker_error_isolation_spec (fl : EventFlags) (q : Queues) (n : Nat)
    (pre post : List AssetFeed) (e : String) (d : Depth) :
    process_market_feed fl q n (pre ++ ({ trades := Except.error e, depth := d } : AssetFeed) :: post)
      = process_market_feed fl (process_market_feed fl q n pre) (n + pre.length + 1) post
    ∧ process_asset fl q n { trades := Except.error e, depth := d } = q := by
  refine ⟨?_, rfl⟩
  induction pre generalizing q n with
  | nil =>
    show process_market_feed fl (process_asset fl q n _) (n + 1) post = _
    rfl
  | cons a pre ih =>
    show process_market_feed fl (process_asset fl q n a) (n + 1) (pre ++ _ :: post) = _
    rw [ih]
    show _ = process_market_feed fl (process_market_feed fl (process_asset fl q n a) (n + 1) pre) (n + (pre.length + 1) + 1) post
    congr 1
    omega

theorem lookup_append_single (l : List (Int × StubOrder)) (k : Int) (v : StubOrder) :
    ((l ++ [(k, v)]).lookup k).isSome = true := by
  induction l with
  | nil => simp [List.lookup]
  | cons p l ih =>
    obtain ⟨pk, pv⟩ := p
    rw [List.cons_append, List.lookup]
    by_cases h : k = pk
    · rw [show (k == pk) = true from beq_iff_eq.mpr h]
      rfl
    · rw [show (k == pk) = false from beq_eq_false_iff_ne.mpr h]
      exact ih

theorem lookup_filter_ne (l : List (Int × StubOrder)) (k : Int) :
    (l.filter fun p => p.1 ≠ k).lookup k = none := by
  induction l with
  | nil => rfl
  | cons p l ih =>
    obtain ⟨pk, pv⟩ := p
    by_cases h : pk = k
    · simpa [List.filter_cons, h] using ih
    · rw [List.filter_cons]
      rw [show (decide ¬((pk, pv).1 = k)) = true by simp [h]]
      rw [if_pos rfl, List.lookup]
      rw [show (k == pk) = false from beq_eq_false_iff_ne.mpr (Ne.symm h)]
      exact ih

/-- C7: against the synthetic stub bot, submitting an order (either side)
whose order id is already among the active orders returns a response with
status error whose description contains the phrase already exists, and
cancelling an order id not among the active orders returns status error
with a description containing not found; moreover a successful submit
puts the id among the active orders and a successful cancel removes it,
so membership in the stub order map is exactly submitted-and-not-
cancelled. -/
theorem stub_order_rejection_spec (s : StubState) (side : Side) (price qty : ℚ)
    (a : Nat) (dup missing : Int) (fill : Bool)
    (hdup : s.hasOrder dup = true) (hmiss : s.hasOrder missing = false) :
    (submit_order_against_stub s side price qty a dup fill).1.status = "error"
    ∧ (submit_order_against_stub s side price qty a dup fill).1.error
        = some "Order ID already exists"
    ∧ containsStr "Order ID already exists" "already exists"
    ∧ (cancel_order_against_stub s missing a).1.status = "error"
    ∧ (cancel_order_against_stub s missing a).1.error = some "Order not found"
    ∧ containsStr "Order not found" "not found"
    ∧ (submit_order_against_stub s side price qty a missing fill).2.hasOrder missing = true
    ∧ (cancel_order_against_stub s dup a).2.hasOrder dup = false := by
  have hbuy : (submit_order_against_stub s side price qty a dup fill).1
      = submit_order dup a (Except.ok 10) := by
    cases side <;>
      simp [submit_order_against_stub, StubConnectorBot.submit_buy_order,
        StubConnectorBot.submit_sell_order, hdup]
  have hcan : (cancel_order_against_stub s missing a).1
      = cancel_order missing a (Except.ok 12) := by
    simp [cancel_order_against_stub, StubConnectorBot.cancel, hmiss]
  refine ⟨?_, ?_, ⟨"Order ID ", "", rfl⟩, ?_, ?_, ⟨"Order ", "", rfl⟩, ?_, ?_⟩
  · rw [hbuy]; simp [submit_order]
  · rw [hbuy]; simp [submit_order, decode_error]
  · rw [hcan]; simp [cancel_order]
  · rw [hcan]; simp [cancel_order, decode_error]
  · have hmiss2 : ¬ (s.hasOrder missing = true) := by
      rw [hmiss]
      simp
    cases side <;>
    · show StubState.hasOrder _ missing = true
      simp only [submit_order_against_stub, StubConnectorBot.submit_buy_order,
        StubConnectorBot.submit_sell_order]
      rw [if_neg hmiss2]
      exact lookup_append_single s.orders missing _
  · show StubState.hasOrder _ dup = false
    simp only [cancel_order_against_stub, StubConnectorBot.cancel]
    rw [if_pos hdup]
    show (List.lookup dup (s.orders.filter fun p => p.1 ≠ dup)).isSome = false
    rw [lookup_filter_ne]
    rfl

theorem stub_order_rejection_witness :
    (submit_order_against_stub stubWithOrder Side.BUY 200 1 0 5 false).1.status = "error"
    ∧ (submit_order_against_stub stubWithOrder Side.BUY 200 1 0 5 false).1.error
        = some "Order ID already exists"
    ∧ containsStr "Order ID already exists" "already exists"
    ∧ (cancel_order_against_stub stubWithOrder 9 0).1.status = "error"
    ∧ (cancel_order_against_stub stubWithOrder 9 0).1.error = some "Order not found"
    ∧ containsStr "Order not found" "not found"
    ∧ (submit_order_against_stub stubWithOrder Side.BUY 200 1 0 9 false).2.hasOrder 9 = true
    ∧ (cancel_order_against_stub stubWithOrder 5 0).2.hasOrder 5 = false :=
  stub_order_rejection_spec stubWithOrder Side.BUY 200 1 0 5 9 false (by decide) (by decide)

theorem apply_preserves_closed (s : StubState) (op : StubOp) (h : s.closed = true) :
    (op.apply s).closed = true := by
  cases op with
  | wait r => simp [StubOp.apply, StubConnectorBot.wait_next_feed, h]
  | close => simp [StubOp.apply, StubConnectorBot.close]
  | submitBuy oid p q f =>
    simp only [StubOp.apply, StubConnectorBot.submit_buy_order]
    split_ifs <;> simp [h]
  | submitSell oid p q f =>
    simp only [StubOp.apply, StubConnectorBot.submit_sell_order]
    split_ifs <;> simp [h]
  | cancel oid =>
    simp only [StubOp.apply, StubConnectorBot.cancel]
    split_ifs <;> simp [h]

theorem run_preserves_closed (ops : List StubOp) (s : StubState) (h : s.closed = true) :
    (s.run ops).closed = true := by
  induction ops generalizing s with
  | nil => exact h
  | cons op ops ih => exact ih _ (apply_preserves_closed s op h)

theorem run_closed_of_mem (ops : List StubOp) (s : StubState) (h : StubOp.close ∈ ops) :
    (s.run ops).closed = true := by
  induction ops generalizing s with
  | nil => cases h
  | cons op ops ih =>
    rcases List.mem_cons.mp h with rfl | h
    · exact run_preserves_closed ops _ (by simp [StubOp.apply, StubConnectorBot.close])
    · exact ih _ h

theorem wait_feed_count (s : StubState) (r : FeedRand) (h : s.closed = false) :
    ((StubConnectorBot.wait_next_feed s r).2).feed_count = s.feed_count + 1 := by
  simp only [StubConnectorBot.wait_next_feed, h]
  split_ifs <;>
    simp_all [StubConnectorBot.generate_synthetic_trade, StubConnectorBot.update_synthetic_depth]

theorem apply_other_feed_count (s : StubState) (op : StubOp)
    (hop : ∀ r : FeedRand, op ≠ StubOp.wait r) :
    (op.apply s).feed_count = s.feed_count := by
  cases op with
  | wait r => exact absurd rfl (hop r)
  | close => simp [StubOp.apply, StubConnectorBot.close]
  | submitBuy oid p q f =>
    simp only [StubOp.apply, StubConnectorBot.submit_buy_order]
    split_ifs <;> simp
  | submitSell oid p q f =>
    simp only [StubOp.apply, StubConnectorBot.submit_sell_order]
    split_ifs <;> simp
  | cancel oid =>
    simp only [StubOp.apply, StubConnectorBot.cancel]
    split_ifs <;> simp

theorem run_feed_count (ops : List StubOp) (s : StubState) :
    (s.run ops).closed = true ∨ (s.run ops).feed_count = s.feed_count + waitCount ops := by
  induction ops generalizing s with
  | nil =>
    right
    simp [StubState.run, waitCount]
  | cons op ops ih =>
    simp only [StubState.run]
    cases op with
    | wait r =>
      by_cases hc : s.closed = true
      · exact Or.inl (run_preserves_closed ops _ (apply_preserves_closed s _ hc))
      · have hc2 : s.closed = false := by simpa using hc
        rcases ih (StubOp.apply s (StubOp.wait r)) with h | h
        · exact Or.inl h
        · right
          rw [h]
          show _ = s.feed_count + (waitCount ops + 1)
          rw [show (StubOp.apply s (StubOp.wait r)).feed_count = s.feed_count + 1 from
            wait_feed_count s r hc2]
          omega
    | close => exact Or.inl (run_preserves_closed ops _ (by simp [StubOp.apply, StubConnectorBot.close]))
    | submitBuy oid p q f =>
      rcases ih (StubOp.apply s (StubOp.submitBuy oid p q f)) with h | h
      · exact Or.inl h
      · right
        rw [h, apply_other_feed_count s _ (by intro r hr; cases hr)]
        rfl
    | submitSell oid p q f =>
      rcases ih (StubOp.apply s (StubOp.submitSell oid p q f)) with h | h
      · exact Or.inl h
      · right
        rw [h, apply_other_feed_count s _ (by intro r hr; cases hr)]
        rfl
    | cancel oid =>
      rcases ih (StubOp.apply s (StubOp.cancel oid)) with h | h
      · exact Or.inl h
      · right
        rw [h, apply_other_feed_count s _ (by intro r hr; cases hr)]
        rfl

/-- C9: the synthetic stub bot terminates its event stream after a bounded
number of polls: from a fresh StubConnectorBot, after any call sequence
containing at least 1000 wait_next_feed calls, and likewise after any
call sequence containing a close call, the next wait_next_feed call
returns the EndOfData code 1, whatever the pseudo-random draws were. -/
theorem stub_end_of_data_spec (bp : ℚ) (t0 : Int) (ops : List StubOp) (r : FeedRand)
    (h : 1000 ≤ waitCount ops ∨ StubOp.close ∈ ops) :
    (StubConnectorBot.wait_next_feed ((StubState.init bp t0).run ops) r).1 = 1 := by
  rcases h with hw | hc
  · rcases run_feed_count ops (StubState.init bp t0) with hcl | hfc
    · simp [StubConnectorBot.wait_next_feed, hcl]
    · by_cases hcl : ((StubState.init bp t0).run ops).closed = true
      · simp [StubConnectorBot.wait_next_feed, hcl]
      · have hcl2 : ((StubState.init bp t0).run ops).closed = false := by simpa using hcl
        have hbig : 1000 ≤ ((StubState.init bp t0).run ops).feed_count := by
          rw [hfc]
          simp only [StubState.init]
          omega
        simp only [StubConnectorBot.wait_next_feed, hcl2]
        rw [if_neg (by simp), if_pos (by omega)]
  · simp [StubConnectorBot.wait_next_feed, run_closed_of_mem ops _ hc]

theorem stub_end_of_data_witness :
    (StubConnectorBot.wait_next_feed ((StubState.init 50000 0).run [StubOp.close]) feedRand0).1 = 1 :=
  stub_end_of_data_spec 50000 0 [StubOp.close] feedRand0
    (Or.inr (List.mem_singleton.mpr rfl))

end HftLive
